import Mathlib

/-!
Shallow embedding of the `app_data` crate (`src/app_data.rs`).

The crate resolves the directory where an application stores persistent
data.  Its effectful surface is small: it reads environment variables,
queries the current working directory, checks path existence and calls
`fs::create_dir_all`.  We embed it as explicit state passing:

* `Path` models Rust `PathBuf` up to `Path`/`PathBuf` equality, which in
  Rust compares component lists (so `"/a/"` equals `"/a"`); a `Path` is an
  absoluteness flag plus the list of non-empty components.  `parsePath`
  models `PathBuf::from` on a string and `Path.join` models
  `Path::join`, which replaces the whole path when the argument is
  absolute and appends the argument's components otherwise.
* `FS` models the filesystem as an existence predicate on paths together
  with a predicate saying on which paths `create_dir_all` succeeds (and
  the error text it produces when it fails).  `FS.create_dir_all` marks
  the target path and every ancestor of it as existing, mirroring
  "creates missing parents".
* `World` bundles the environment map, the result of
  `env::current_dir()` and the filesystem.
* `get_sys_app_data_dir` is compiled per target OS in the source
  (`#[cfg(target_os = ...)]`); we reify the compile-time choice as a
  `TargetOS` parameter and translate each `cfg` branch.
-/

namespace AppDataLib

/-- Rust `Result<T, E>`. -/
inductive Result (α : Type) (ε : Type)
  | ok (val : α)
  | err (e : ε)
deriving DecidableEq, Repr

/-- Target operating system, reifying the `#[cfg(target_os = ...)]`
compile-time branch of `get_sys_app_data_dir`. -/
inductive TargetOS
  | windows
  | macos
  | linux
deriving DecidableEq, Repr

/-- A filesystem path, modelled as Rust `Path` equality sees it: an
absoluteness flag and the list of non-empty components. -/
structure Path where
  absolute : Bool
  segments : List String
deriving DecidableEq, Repr

/-- Split a character list on `/`, keeping the non-empty pieces as
strings; `acc` holds the characters of the current piece in reverse. -/
def splitSegs : List Char → List Char → List String
  | [], acc => if acc = [] then [] else [String.mk acc.reverse]
  | c :: cs, acc =>
    if c = '/' then
      if acc = [] then splitSegs cs []
      else String.mk acc.reverse :: splitSegs cs []
    else splitSegs cs (c :: acc)

/-- Model of `PathBuf::from` on a string: absolute iff the string starts
with a separator; components are the non-empty pieces between
separators. -/
def parsePath (s : String) : Path :=
  { absolute := match s.data with
      | c :: _ => c == '/'
      | [] => false
    segments := splitSegs s.data [] }

/-- Model of Rust `Path::join` (and `PathBuf::push`): if the argument is
an absolute path it replaces the receiver entirely, otherwise its
components are appended. -/
def Path.join (p : Path) (s : String) : Path :=
  let q := parsePath s
  if q.absolute then q
  else { absolute := p.absolute, segments := p.segments ++ q.segments }

/-- `p.isAncestorOf q` holds when `p` denotes `q` or one of its parent
directories (same absoluteness, component-list is a prefix).  Used to
model `create_dir_all` creating missing parents. -/
def Path.isAncestorOf (p q : Path) : Bool :=
  p.absolute == q.absolute && p.segments.isPrefixOf q.segments

/-- The error enum `AppDataError` of `src/app_data.rs`:
`EnvVarNotFound`, `IoError` (from `std::io::Error` via `From`), and
`CurrentDirError`. -/
inductive AppDataError
  | EnvVarNotFound (v : String)
  | IoError (msg : String)
  | CurrentDirError (msg : String)
deriving DecidableEq, Repr

/-- The process environment: a map from variable names to their values,
`none` when unset (Rust `env::var` returning `Err`). -/
def Env : Type := String → Option String

/-- The filesystem state: which paths exist, on which paths
`fs::create_dir_all` succeeds, and the `io::Error` text it yields where
it fails. -/
structure FS where
  pathExists : Path → Bool
  createOk : Path → Bool
  errMsg : Path → String

/-- Model of `fs::create_dir_all(p)`: on success every ancestor of `p`
(including `p` itself) now exists; on failure the error converts to
`AppDataError::IoError` via the `From<std::io::Error>` impl. -/
def FS.create_dir_all (fs : FS) (p : Path) : Result FS AppDataError :=
  if fs.createOk p then
    Result.ok { fs with pathExists := fun q => fs.pathExists q || q.isAncestorOf p }
  else
    Result.err (AppDataError.IoError (fs.errMsg p))

/-- The world an `AppData` method runs in: environment variables, the
result of `env::current_dir()` (the string is the `io::Error` text on
failure), and the filesystem. -/
structure World where
  env : Env
  cwd : Result Path String
  fs : FS

/-- Per-OS `get_sys_app_data_dir`, translating the three `#[cfg]`
variants of `src/app_data.rs` lines 42-67.  It reads only the
environment: the filesystem is not an argument. -/
def get_sys_app_data_dir (os : TargetOS) (env : Env) : Result Path AppDataError :=
  match os with
  | TargetOS.windows =>
    match env "APPDATA" with
    | some v => Result.ok (parsePath v)
    | none => Result.err (AppDataError.EnvVarNotFound "APPDATA")
  | TargetOS.macos =>
    match env "HOME" with
    | some home => Result.ok ((parsePath home).join "Library/Application Support")
    | none => Result.err (AppDataError.EnvVarNotFound "HOME")
  | TargetOS.linux =>
    match env "XDG_DATA_HOME" with
    | some xdg => Result.ok (parsePath xdg)
    | none =>
      match env "HOME" with
      | some home => Result.ok ((parsePath home).join ".local/share")
      | none => Result.err (AppDataError.EnvVarNotFound "XDG_DATA_HOME and HOME")

/-- The `AppData` struct: application name and the force-local flag. -/
structure AppData where
  app_name : String
  force_local : Bool
deriving DecidableEq, Repr

/-- `AppData::new`: the given name, `force_local = false`. -/
def AppData.new (app_name : String) : AppData :=
  { app_name := app_name, force_local := false }

/-- `AppData::with_force_local`: both fields explicit. -/
def AppData.with_force_local (app_name : String) (force_local : Bool) : AppData :=
  { app_name := app_name, force_local := force_local }

/-- `<AppData as Default>::default()`: reads `env::var("CARGO_PKG_NAME")`
from the process environment; if unset, `with_force_local("", true)`,
otherwise `new` with the value. -/
def AppData.default (env : Env) : AppData :=
  match env "CARGO_PKG_NAME" with
  | none => AppData.with_force_local "" true
  | some name => AppData.new name

/-- `AppData::ensure_data_dir` (lines 128-143): current directory, the
`./data` short-circuit, the force-local creation, else the system path
joined with `app_name`, created when missing.  Returns the resulting
path (or error) together with the filesystem after the call. -/
def AppData.ensure_data_dir (a : AppData) (os : TargetOS) (w : World) :
    Result Path AppDataError × FS :=
  match w.cwd with
  | Result.err e => (Result.err (AppDataError.CurrentDirError e), w.fs)
  | Result.ok path =>
    let root_path := path.join "data"
    if w.fs.pathExists root_path then
      (Result.ok root_path, w.fs)
    else if a.force_local then
      match w.fs.create_dir_all root_path with
      | Result.ok fs2 => (Result.ok root_path, fs2)
      | Result.err e => (Result.err e, w.fs)
    else
      match get_sys_app_data_dir os w.env with
      | Result.err e => (Result.err e, w.fs)
      | Result.ok sys_root =>
        let sys_path := sys_root.join a.app_name
        if ! w.fs.pathExists sys_path then
          match w.fs.create_dir_all sys_path with
          | Result.ok fs2 => (Result.ok sys_path, fs2)
          | Result.err e => (Result.err e, w.fs)
        else
          (Result.ok sys_path, w.fs)

/-- `AppData::get_file_path` (lines 157-160): `ensure_data_dir`, then
`join(file_name)`; errors propagate via `?`. -/
def AppData.get_file_path (a : AppData) (os : TargetOS) (w : World)
    (file_name : String) : Result Path AppDataError × FS :=
  match a.ensure_data_dir os w with
  | (Result.ok data_dir, fs2) => (Result.ok (data_dir.join file_name), fs2)
  | (Result.err e, fs2) => (Result.err e, fs2)

/-- The environment variable name carried by the `EnvVarNotFound` error
of each `cfg` branch of `get_sys_app_data_dir`. -/
def missingVarName : TargetOS → String
  | TargetOS.windows => "APPDATA"
  | TargetOS.macos => "HOME"
  | TargetOS.linux => "XDG_DATA_HOME and HOME"

/-- The platform's required environment variable(s) being unset, per
`cfg` branch of `get_sys_app_data_dir`. -/
def sysVarsUnset (os : TargetOS) (env : Env) : Prop :=
  match os with
  | TargetOS.windows => env "APPDATA" = none
  | TargetOS.macos => env "HOME" = none
  | TargetOS.linux => env "XDG_DATA_HOME" = none ∧ env "HOME" = none

/-- Stated from the spec's words for comparison with the code: the
result of `ensure_data_dir` "with `file_name` appended as the final path
segment". -/
def specAppendFileName (p : Path) (file_name : String) : Path :=
  { absolute := p.absolute, segments := p.segments ++ [file_name] }

/-! Concrete worlds used by the witnesses and counterexamples below. -/

/-- A world whose `./data` directory (here `/home/me/data`) already
exists; no environment variable is set and every creation attempt would
fail, so a successful call can only have used the short-circuit. -/
def w1 : World :=
  { env := fun _ => none
    cwd := Result.ok ⟨true, ["home", "me"]⟩
    fs := { pathExists := fun q => q == ⟨true, ["home", "me", "data"]⟩
            createOk := fun _ => false
            errMsg := fun _ => "boom" } }

/-- An environment with only `XDG_DATA_HOME` set. -/
def envX : Env := fun s => if s = "XDG_DATA_HOME" then some "/xdg" else none

/-- An environment with only `HOME` set. -/
def envH : Env := fun s => if s = "HOME" then some "/home/u" else none

/-- The empty environment. -/
def envN : Env := fun _ => none

/-- An environment with only `CARGO_PKG_NAME` set. -/
def envPkg : Env := fun s => if s = "CARGO_PKG_NAME" then some "app_data" else none

/-- An environment where `XDG_DATA_HOME` is set to the empty string. -/
def envE : Env := fun s => if s = "XDG_DATA_HOME" then some "" else none

/-- A Linux-style world with `XDG_DATA_HOME=/xdg`, working directory
`/proj`, an empty filesystem, and creation succeeding everywhere. -/
def w3 : World :=
  { env := envX
    cwd := Result.ok ⟨true, ["proj"]⟩
    fs := { pathExists := fun _ => false, createOk := fun _ => true, errMsg := fun _ => "" } }

/-- A world with no environment variables, working directory `/srv`, an
empty filesystem, and creation succeeding everywhere. -/
def w4 : World :=
  { env := envN
    cwd := Result.ok ⟨true, ["srv"]⟩
    fs := { pathExists := fun _ => false, createOk := fun _ => true, errMsg := fun _ => "" } }

/-- A world with working directory `/app` whose data directory
`/app/data` already exists; nothing else exists and creation would
fail. -/
def wf : World :=
  { env := fun _ => none
    cwd := Result.ok ⟨true, ["app"]⟩
    fs := { pathExists := fun q => q == ⟨true, ["app", "data"]⟩
            createOk := fun _ => false
            errMsg := fun _ => "" } }

/-- A world with `XDG_DATA_HOME=""`, working directory `/proj2`, an
empty filesystem, and creation succeeding everywhere. -/
def w10 : World :=
  { env := envE
    cwd := Result.ok ⟨true, ["proj2"]⟩
    fs := { pathExists := fun _ => false, createOk := fun _ => true, errMsg := fun _ => "" } }

/-- A world where `XDG_DATA_HOME` points inside the would-be local data
directory: `XDG_DATA_HOME=/w/data` with working directory `/w`, an empty
filesystem, and creation succeeding everywhere. -/
def cw7 : World :=
  { env := fun s => if s = "XDG_DATA_HOME" then some "/w/data" else none
    cwd := Result.ok ⟨true, ["w"]⟩
    fs := { pathExists := fun _ => false, createOk := fun _ => true, errMsg := fun _ => "" } }

/-! Helper lemmas. -/

theorem isPrefixOf_self (l : List String) : l.isPrefixOf l = true := by
  induction l with
  | nil => rfl
  | cons a as ih => simp [List.isPrefixOf, ih]

theorem Path.isAncestorOf_self (p : Path) : p.isAncestorOf p = true := by
  simp [Path.isAncestorOf, isPrefixOf_self]

/-- After a successful `create_dir_all p`, `p` exists. -/
theorem FS.create_dir_all_target_exists (fs fs2 : FS) (p : Path)
    (h : fs.create_dir_all p = Result.ok fs2) : fs2.pathExists p = true := by
  unfold FS.create_dir_all at h
  by_cases hc : fs.createOk p = true
  · rw [if_pos hc] at h
    cases h
    simp [Path.isAncestorOf_self]
  · rw [if_neg hc] at h
    cases h

/-! Claims. -/

/-- C1: for every `AppData` value, if `<cwd>/data` already exists,
`ensure_data_dir` returns exactly that path and leaves the filesystem
unchanged (creates nothing), for any `force_local` and any environment
(the environment is an arbitrary component of `w` and nothing in the
conclusion depends on it). -/
theorem c1_existing_local_data_wins (a : AppData) (os : TargetOS) (w : World) (cw : Path)
    (hcwd : w.cwd = Result.ok cw)
    (hex : w.fs.pathExists (cw.join "data") = true) :
    a.ensure_data_dir os w = (Result.ok (cw.join "data"), w.fs) := by
  unfold AppData.ensure_data_dir
  rw [hcwd]
  simp [hex]

/-- C1 witness: in `w1` the directory `/home/me/data` exists, no
environment variable is set and all creation would fail, yet the call
(with `force_local = true`) succeeds with exactly that path and an
unchanged filesystem. -/
theorem c1_witness :
    (AppData.with_force_local "x" true).ensure_data_dir TargetOS.windows w1
      = (Result.ok ⟨true, ["home", "me", "data"]⟩, w1.fs) :=
  c1_existing_local_data_wins (AppData.with_force_local "x" true) TargetOS.windows w1
    ⟨true, ["home", "me"]⟩ rfl (by decide)

/-- C2: the Linux branch of `get_sys_app_data_dir` returns
`XDG_DATA_HOME` verbatim as a path when set, else `HOME/.local/share`
when `HOME` is set, else the `EnvVarNotFound "XDG_DATA_HOME and HOME"`
error.  The function takes only the environment — by its type it cannot
touch the filesystem. -/
theorem c2_linux_platform_root (env : Env) :
    (∀ v, env "XDG_DATA_HOME" = some v →
      get_sys_app_data_dir TargetOS.linux env = Result.ok (parsePath v)) ∧
    (env "XDG_DATA_HOME" = none → ∀ home, env "HOME" = some home →
      get_sys_app_data_dir TargetOS.linux env
        = Result.ok ((parsePath home).join ".local/share")) ∧
    (env "XDG_DATA_HOME" = none → env "HOME" = none →
      get_sys_app_data_dir TargetOS.linux env
        = Result.err (AppDataError.EnvVarNotFound "XDG_DATA_HOME and HOME")) := by
  refine ⟨?_, ?_, ?_⟩
  · intro v hv
    simp [get_sys_app_data_dir, hv]
  · intro hx home hh
    simp [get_sys_app_data_dir, hx, hh]
  · intro hx hh
    simp [get_sys_app_data_dir, hx, hh]

/-- C2 witness: the three branches at concrete environments. -/
theorem c2_witness :
    get_sys_app_data_dir TargetOS.linux envX = Result.ok (parsePath "/xdg") ∧
    get_sys_app_data_dir TargetOS.linux envH
      = Result.ok ((parsePath "/home/u").join ".local/share") ∧
    get_sys_app_data_dir TargetOS.linux envN
      = Result.err (AppDataError.EnvVarNotFound "XDG_DATA_HOME and HOME") :=
  ⟨(c2_linux_platform_root envX).1 "/xdg" (by decide),
   (c2_linux_platform_root envH).2.1 (by decide) "/home/u" (by decide),
   (c2_linux_platform_root envN).2.2 (by decide) (by decide)⟩

/-- C8: the `Default` impl reads the build system's declared package
name (`CARGO_PKG_NAME`, as the code observes it through `env::var`):
when available it becomes `app_name` with `force_local = false`; when
unavailable the result is the empty name with `force_local = true`. -/
theorem c8_default_construct (env : Env) :
    (∀ n, env "CARGO_PKG_NAME" = some n →
      AppData.default env = { app_name := n, force_local := false }) ∧
    (env "CARGO_PKG_NAME" = none →
      AppData.default env = { app_name := "", force_local := true }) := by
  constructor
  · intro n hn
    simp [AppData.default, hn, AppData.new]
  · intro hn
    simp [AppData.default, hn, AppData.with_force_local]

/-- C8 witness: both branches at concrete environments. -/
theorem c8_witness :
    AppData.default envPkg = { app_name := "app_data", force_local := false } ∧
    AppData.default envN = { app_name := "", force_local := true } :=
  ⟨(c8_default_construct envPkg).1 "app_data" (by decide),
   (c8_default_construct envN).2 (by decide)⟩

/-- C3: with `force_local = false`, no local `./data`, and the platform
root resolving successfully (its environment variable(s) set), the call
returns the platform root joined with `app_name` — for a (valid,
i.e. non-absolute) application name this appends `app_name`'s components
to the root — and that path exists after the call.  The hypothesis `hcr`
says the target either already exists or the filesystem permits its
creation, the spec's standing assumption for the success scenario. -/
theorem c3_system_path (a : AppData) (os : TargetOS) (w : World) (cw sys_root : Path)
    (hfl : a.force_local = false)
    (hcwd : w.cwd = Result.ok cw)
    (hnl : w.fs.pathExists (cw.join "data") = false)
    (hsys : get_sys_app_data_dir os w.env = Result.ok sys_root)
    (hname : (parsePath a.app_name).absolute = false)
    (hcr : w.fs.pathExists (sys_root.join a.app_name) = true
        ∨ w.fs.createOk (sys_root.join a.app_name) = true) :
    (a.ensure_data_dir os w).fst = Result.ok (sys_root.join a.app_name) ∧
    ((a.ensure_data_dir os w).snd).pathExists (sys_root.join a.app_name) = true ∧
    (sys_root.join a.app_name).absolute = sys_root.absolute ∧
    (sys_root.join a.app_name).segments
      = sys_root.segments ++ (parsePath a.app_name).segments := by
  have hmain : (a.ensure_data_dir os w).fst = Result.ok (sys_root.join a.app_name) ∧
      ((a.ensure_data_dir os w).snd).pathExists (sys_root.join a.app_name) = true := by
    unfold AppData.ensure_data_dir
    rw [hcwd]
    by_cases hex : w.fs.pathExists (sys_root.join a.app_name) = true
    · simp [hnl, hfl, hsys, hex]
    · have hco : w.fs.createOk (sys_root.join a.app_name) = true := by
        rcases hcr with h | h
        · exact absurd h hex
        · exact h
      rw [Bool.not_eq_true] at hex
      simp [hnl, hfl, hsys, hex, FS.create_dir_all, hco, Path.isAncestorOf_self]
  exact ⟨hmain.1, hmain.2, by simp [Path.join, hname], by simp [Path.join, hname]⟩

/-- C3 witness: the spec's concrete scenario shape — on Linux with
`XDG_DATA_HOME=/xdg` and no local `./data`, `new "my_app"` resolves to
`/xdg/my_app`, which exists afterwards. -/
theorem c3_witness :
    ((AppData.new "my_app").ensure_data_dir TargetOS.linux w3).fst
      = Result.ok ⟨true, ["xdg", "my_app"]⟩ ∧
    (((AppData.new "my_app").ensure_data_dir TargetOS.linux w3).snd).pathExists
      ⟨true, ["xdg", "my_app"]⟩ = true := by
  have h := c3_system_path (AppData.new "my_app") TargetOS.linux w3 ⟨true, ["proj"]⟩
    (parsePath "/xdg") rfl rfl (by decide) (by decide) (by decide) (Or.inr (by decide))
  exact ⟨h.1, h.2.1⟩

/-- C4: with `force_local = true` and no local `./data`, the call
creates `<cwd>/data` (the filesystem permitting, hypothesis `hcr`) and
returns it: the result is `cwd` with a final `data` segment appended, it
exists after the call, and no environment variable is consulted — the
final conjunct re-runs the call under an arbitrary replacement
environment and gets the identical outcome. -/
theorem c4_force_local_creates (a : AppData) (os : TargetOS) (w : World) (cw : Path)
    (hfl : a.force_local = true)
    (hcwd : w.cwd = Result.ok cw)
    (hnl : w.fs.pathExists (cw.join "data") = false)
    (hcr : w.fs.createOk (cw.join "data") = true) :
    ∃ fs2, a.ensure_data_dir os w = (Result.ok (cw.join "data"), fs2) ∧
      fs2.pathExists (cw.join "data") = true ∧
      (cw.join "data").absolute = cw.absolute ∧
      (cw.join "data").segments = cw.segments ++ ["data"] ∧
      (∀ env2, a.ensure_data_dir os { w with env := env2 }
        = (Result.ok (cw.join "data"), fs2)) := by
  have hdata : parsePath "data" = ⟨false, ["data"]⟩ := by decide
  refine ⟨{ w.fs with
      pathExists := fun q => w.fs.pathExists q || q.isAncestorOf (cw.join "data") },
    ?_, ?_, ?_, ?_, ?_⟩
  · unfold AppData.ensure_data_dir
    rw [hcwd]
    simp [hnl, hfl, FS.create_dir_all, hcr]
  · simp [Path.isAncestorOf_self]
  · simp [Path.join, hdata]
  · simp [Path.join, hdata]
  · intro env2
    unfold AppData.ensure_data_dir
    simp only [World.cwd]
    rw [hcwd]
    simp [hnl, hfl, FS.create_dir_all, hcr]

/-- C4 witness: in `w4` (no environment variables at all), the
force-local call returns `/srv/data`, which exists afterwards. -/
theorem c4_witness :
    ((AppData.with_force_local "ignored" true).ensure_data_dir TargetOS.linux w4).fst
      = Result.ok ⟨true, ["srv", "data"]⟩ ∧
    (((AppData.with_force_local "ignored" true).ensure_data_dir TargetOS.linux w4).snd).pathExists
      ⟨true, ["srv", "data"]⟩ = true := by
  obtain ⟨fs2, h1, h2, -, -, -⟩ := c4_force_local_creates
    (AppData.with_force_local "ignored" true) TargetOS.linux w4 ⟨true, ["srv"]⟩
    rfl rfl (by decide) (by decide)
  rw [h1]
  exact ⟨congrArg Result.ok
    (show Path.join ⟨true, ["srv"]⟩ "data" = ⟨true, ["srv", "data"]⟩ by decide), h2⟩

/-- C5: with `force_local = false`, no local `./data`, and the
platform's required variable(s) unset, the call fails with
`EnvVarNotFound` naming the platform's variable(s) (`APPDATA`, `HOME`,
or `XDG_DATA_HOME and HOME`) and returns the filesystem unchanged: no
directory is created. -/
theorem c5_missing_env_vars (a : AppData) (os : TargetOS) (w : World) (cw : Path)
    (hfl : a.force_local = false)
    (hcwd : w.cwd = Result.ok cw)
    (hnl : w.fs.pathExists (cw.join "data") = false)
    (hmiss : sysVarsUnset os w.env) :
    a.ensure_data_dir os w
      = (Result.err (AppDataError.EnvVarNotFound (missingVarName os)), w.fs) := by
  have hsys : get_sys_app_data_dir os w.env
      = Result.err (AppDataError.EnvVarNotFound (missingVarName os)) := by
    cases os with
    | windows =>
      unfold sysVarsUnset at hmiss
      simp [get_sys_app_data_dir, missingVarName, hmiss]
    | macos =>
      unfold sysVarsUnset at hmiss
      simp [get_sys_app_data_dir, missingVarName, hmiss]
    | linux =>
      unfold sysVarsUnset at hmiss
      simp [get_sys_app_data_dir, missingVarName, hmiss.1, hmiss.2]
  unfold AppData.ensure_data_dir
  rw [hcwd]
  simp [hnl, hfl, hsys]

/-- C5 witness: on Linux with the empty environment and no local
`./data`, the call fails naming `XDG_DATA_HOME and HOME`, filesystem
untouched. -/
theorem c5_witness :
    (AppData.new "x").ensure_data_dir TargetOS.linux w4
      = (Result.err (AppDataError.EnvVarNotFound "XDG_DATA_HOME and HOME"), w4.fs) :=
  c5_missing_env_vars (AppData.new "x") TargetOS.linux w4 ⟨true, ["srv"]⟩
    rfl rfl (by decide) ⟨by decide, by decide⟩

/-- C6 counterexample: in `wf` the data directory resolves to
`/app/data`, yet `get_file_path "/etc/passwd"` returns `/etc/passwd`
itself — not `/app/data` with `"/etc/passwd"` appended as a final
segment — so the claim's universal "appended as the final path segment"
fails at an absolute file name. -/
theorem c6_counterexample :
    ((AppData.new "x").ensure_data_dir TargetOS.linux wf).fst
      = Result.ok ⟨true, ["app", "data"]⟩ ∧
    ((AppData.new "x").get_file_path TargetOS.linux wf "/etc/passwd").fst
      = Result.ok ⟨true, ["etc", "passwd"]⟩ ∧
    Result.ok (specAppendFileName ⟨true, ["app", "data"]⟩ "/etc/passwd")
      ≠ ((AppData.new "x").get_file_path TargetOS.linux wf "/etc/passwd").fst := by
  decide

/-- C6 amended: `get_file_path` returns exactly `ensure_data_dir`'s
result with `file_name` joined under path-join semantics — appended as
path segments when `file_name` is relative, replacing the directory when
it is absolute — it propagates `ensure_data_dir`'s error unchanged, and
it creates nothing beyond what `ensure_data_dir` did (the filesystem
component is `ensure_data_dir`'s, untouched). -/
theorem c6_get_file_path_join (a : AppData) (os : TargetOS) (w : World) (name : String) :
    (∀ e f, a.ensure_data_dir os w = (Result.err e, f) →
      a.get_file_path os w name = (Result.err e, f)) ∧
    (∀ d f, a.ensure_data_dir os w = (Result.ok d, f) →
      a.get_file_path os w name = (Result.ok (d.join name), f) ∧
      ((parsePath name).absolute = false →
        d.join name = ⟨d.absolute, d.segments ++ (parsePath name).segments⟩)) := by
  constructor
  · intro e f h
    unfold AppData.get_file_path
    rw [h]
  · intro d f h
    refine ⟨?_, ?_⟩
    · unfold AppData.get_file_path
      rw [h]
    · intro hrel
      simp [Path.join, hrel]

/-- C6 witness: a relative file name in `wf` is appended:
`config.json` under `/app/data` yields `/app/data/config.json`. -/
theorem c6_witness :
    (AppData.new "x").get_file_path TargetOS.linux wf "config.json"
      = (Result.ok ⟨true, ["app", "data", "config.json"]⟩, wf.fs) :=
  ((c6_get_file_path_join (AppData.new "x") TargetOS.linux wf "config.json").2
    ⟨true, ["app", "data"]⟩ wf.fs rfl).1

/-- C9: when `ensure_data_dir` succeeds and `file_name` is an absolute
path, `get_file_path` returns `file_name` itself, discarding the
resolved data directory entirely — `Path::join` replaces rather than
appends on an absolute argument, and nothing validates or sanitizes
`file_name`. -/
theorem c9_absolute_file_name_replaces (a : AppData) (os : TargetOS) (w : World)
    (d : Path) (f : FS) (name : String)
    (hok : a.ensure_data_dir os w = (Result.ok d, f))
    (habs : (parsePath name).absolute = true) :
    a.get_file_path os w name = (Result.ok (parsePath name), f) := by
  unfold AppData.get_file_path
  rw [hok]
  simp [Path.join, habs]

/-- C9 witness: `get_file_path "/etc/passwd"` in `wf` returns
`/etc/passwd`, not a path under the data directory `/app/data`. -/
theorem c9_witness :
    (AppData.new "x").get_file_path TargetOS.linux wf "/etc/passwd"
      = (Result.ok ⟨true, ["etc", "passwd"]⟩, wf.fs) :=
  c9_absolute_file_name_replaces (AppData.new "x") TargetOS.linux wf
    ⟨true, ["app", "data"]⟩ wf.fs "/etc/passwd" rfl (by decide)

/-- C10: on Linux, a set `XDG_DATA_HOME` whose value is empty or a
relative path (i.e. parses to a non-absolute path) is accepted verbatim
by the platform-root resolver, and `ensure_data_dir` (with
`force_local = false`, no local `./data`, and the filesystem permitting)
then resolves to a non-absolute data directory — one interpreted
relative to the current working directory rather than any absolute
system location. -/
theorem c10_relative_xdg_accepted (a : AppData) (w : World) (cw : Path) (v : String)
    (hfl : a.force_local = false)
    (hcwd : w.cwd = Result.ok cw)
    (hnl : w.fs.pathExists (cw.join "data") = false)
    (hx : w.env "XDG_DATA_HOME" = some v)
    (hrel : (parsePath v).absolute = false)
    (hname : (parsePath a.app_name).absolute = false)
    (hcr : w.fs.pathExists ((parsePath v).join a.app_name) = true
        ∨ w.fs.createOk ((parsePath v).join a.app_name) = true) :
    get_sys_app_data_dir TargetOS.linux w.env = Result.ok (parsePath v) ∧
    (a.ensure_data_dir TargetOS.linux w).fst
      = Result.ok ((parsePath v).join a.app_name) ∧
    ((parsePath v).join a.app_name).absolute = false := by
  have hsys : get_sys_app_data_dir TargetOS.linux w.env = Result.ok (parsePath v) := by
    simp [get_sys_app_data_dir, hx]
  have habs : ((parsePath v).join a.app_name).absolute = false := by
    simp [Path.join, hname, hrel]
  have hmain : (a.ensure_data_dir TargetOS.linux w).fst
      = Result.ok ((parsePath v).join a.app_name) := by
    unfold AppData.ensure_data_dir
    rw [hcwd]
    by_cases hex : w.fs.pathExists ((parsePath v).join a.app_name) = true
    · simp [hnl, hfl, hsys, hex]
    · have hco : w.fs.createOk ((parsePath v).join a.app_name) = true := by
        rcases hcr with h | h
        · exact absurd h hex
        · exact h
      rw [Bool.not_eq_true] at hex
      simp [hnl, hfl, hsys, hex, FS.create_dir_all, hco]
  exact ⟨hsys, hmain, habs⟩

/-- C10 witness: with `XDG_DATA_HOME=""` in `w10`, `new "my_app"`
resolves the data directory to the relative path `my_app`. -/
theorem c10_witness :
    ((AppData.new "my_app").ensure_data_dir TargetOS.linux w10).fst
      = Result.ok ⟨false, ["my_app"]⟩ ∧
    (Path.mk false ["my_app"]).absolute = false := by
  have h := c10_relative_xdg_accepted (AppData.new "my_app") w10 ⟨true, ["proj2"]⟩ ""
    rfl rfl (by decide) (by decide) (by decide) (by decide) (Or.inr (by decide))
  exact ⟨h.2.1, by decide⟩

/-- C7 counterexample: in `cw7` (`XDG_DATA_HOME=/w/data`, cwd `/w`,
nothing exists) the first call returns `/w/data/app` — creating
`/w/data` as a missing parent along the way — and the second call, on
the unchanged environment and the filesystem the first call left
behind, short-circuits on the now-existing `/w/data` and returns that
different path.  So "returns the identical path both times" is false as
stated. -/
theorem c7_counterexample :
    ((AppData.new "app").ensure_data_dir TargetOS.linux cw7).fst
      = Result.ok ⟨true, ["w", "data", "app"]⟩ ∧
    ((AppData.new "app").ensure_data_dir TargetOS.linux
        { cw7 with fs := ((AppData.new "app").ensure_data_dir TargetOS.linux cw7).snd }).fst
      = Result.ok ⟨true, ["w", "data"]⟩ ∧
    (Path.mk true ["w", "data"]) ≠ ⟨true, ["w", "data", "app"]⟩ := by
  decide

/-- C7 amended: when the first `ensure_data_dir` call succeeds with path
`p`, a second call against the unchanged environment and the filesystem
the first call produced succeeds with the same path `p` and leaves the
filesystem unchanged (no further creation) — provided `<cwd>/data`, if
it exists after the first call, is `p` itself.  The proviso is what the
counterexample forces: it fails exactly when the first call created
`<cwd>/data` as a parent of a system path lying strictly below it. -/
theorem c7_idempotent_amended (a : AppData) (os : TargetOS) (w : World) (cw p : Path)
    (hcwd : w.cwd = Result.ok cw)
    (h1 : (a.ensure_data_dir os w).fst = Result.ok p)
    (hnd : ((a.ensure_data_dir os w).snd).pathExists (cw.join "data") = true →
      p = cw.join "data") :
    a.ensure_data_dir os { w with fs := (a.ensure_data_dir os w).snd }
      = (Result.ok p, (a.ensure_data_dir os w).snd) := by
  obtain ⟨we, wc, wfs⟩ := w
  change wc = Result.ok cw at hcwd
  subst hcwd
  by_cases hroot : wfs.pathExists (cw.join "data") = true
  · have hE : a.ensure_data_dir os ⟨we, Result.ok cw, wfs⟩ = (Result.ok (cw.join "data"), wfs) := by
      unfold AppData.ensure_data_dir
      simp [hroot]
    rw [hE] at h1 ⊢
    simp only [Result.ok.injEq] at h1
    subst h1
    exact hE
  · rw [Bool.not_eq_true] at hroot
    by_cases hfl : a.force_local = true
    · by_cases hco : wfs.createOk (cw.join "data") = true
      · have hE : a.ensure_data_dir os ⟨we, Result.ok cw, wfs⟩
            = (Result.ok (cw.join "data"),
               { wfs with pathExists := fun q =>
                   wfs.pathExists q || q.isAncestorOf (cw.join "data") }) := by
          unfold AppData.ensure_data_dir
          simp [hroot, hfl, FS.create_dir_all, hco]
        rw [hE] at h1 ⊢
        simp only [Result.ok.injEq] at h1
        subst h1
        unfold AppData.ensure_data_dir
        simp [hroot, Path.isAncestorOf_self]
      · exfalso
        rw [Bool.not_eq_true] at hco
        have hE : (a.ensure_data_dir os ⟨we, Result.ok cw, wfs⟩).fst
            = Result.err (AppDataError.IoError (wfs.errMsg (cw.join "data"))) := by
          unfold AppData.ensure_data_dir
          simp [hroot, hfl, FS.create_dir_all, hco]
        rw [hE] at h1
        cases h1
    · rw [Bool.not_eq_true] at hfl
      cases hsys : get_sys_app_data_dir os we with
      | err e =>
        exfalso
        have hE : (a.ensure_data_dir os ⟨we, Result.ok cw, wfs⟩).fst = Result.err e := by
          unfold AppData.ensure_data_dir
          simp [hroot, hfl, hsys]
        rw [hE] at h1
        cases h1
      | ok sroot =>
        by_cases hsx : wfs.pathExists (sroot.join a.app_name) = true
        · have hE : a.ensure_data_dir os ⟨we, Result.ok cw, wfs⟩
              = (Result.ok (sroot.join a.app_name), wfs) := by
            unfold AppData.ensure_data_dir
            simp [hroot, hfl, hsys, hsx]
          rw [hE] at h1 ⊢
          simp only [Result.ok.injEq] at h1
          subst h1
          exact hE
        · rw [Bool.not_eq_true] at hsx
          by_cases hco : wfs.createOk (sroot.join a.app_name) = true
          · have hE : a.ensure_data_dir os ⟨we, Result.ok cw, wfs⟩
                = (Result.ok (sroot.join a.app_name),
                   { wfs with pathExists := fun q =>
                       wfs.pathExists q || q.isAncestorOf (sroot.join a.app_name) }) := by
              unfold AppData.ensure_data_dir
              simp [hroot, hfl, hsys, hsx, FS.create_dir_all, hco]
            rw [hE] at h1 hnd ⊢
            simp only [Result.ok.injEq] at h1
            subst h1
            by_cases hanc : (cw.join "data").isAncestorOf (sroot.join a.app_name) = true
            · have hroot2 : (wfs.pathExists (cw.join "data")
                  || (cw.join "data").isAncestorOf (sroot.join a.app_name)) = true := by
                rw [hroot, hanc]
                rfl
              have heq := hnd hroot2
              rw [heq]
              unfold AppData.ensure_data_dir
              simp [Path.isAncestorOf_self]
            · rw [Bool.not_eq_true] at hanc
              have hroot2 : (wfs.pathExists (cw.join "data")
                  || (cw.join "data").isAncestorOf (sroot.join a.app_name)) = false := by
                rw [hroot, hanc]
                rfl
              unfold AppData.ensure_data_dir
              simp [hroot2, hfl, hsys, hsx, Path.isAncestorOf_self]
          · exfalso
            rw [Bool.not_eq_true] at hco
            have hE : (a.ensure_data_dir os ⟨we, Result.ok cw, wfs⟩).fst
                = Result.err (AppDataError.IoError (wfs.errMsg (sroot.join a.app_name))) := by
              unfold AppData.ensure_data_dir
              simp [hroot, hfl, hsys, hsx, FS.create_dir_all, hco]
            rw [hE] at h1
            cases h1

/-- C7 witness: the force-local call in `w4` creates `/srv/data`; the
second call on the resulting filesystem returns the identical path and
the identical (unchanged) filesystem. -/
theorem c7_witness :
    (AppData.with_force_local "ignored" true).ensure_data_dir TargetOS.linux
        { w4 with fs := ((AppData.with_force_local "ignored" true).ensure_data_dir
            TargetOS.linux w4).snd }
      = (Result.ok ⟨true, ["srv", "data"]⟩,
         ((AppData.with_force_local "ignored" true).ensure_data_dir TargetOS.linux w4).snd) :=
  c7_idempotent_amended (AppData.with_force_local "ignored" true) TargetOS.linux w4
    ⟨true, ["srv"]⟩ ⟨true, ["srv", "data"]⟩ rfl (by decide) (fun _ => by decide)

end AppDataLib
